import Mathlib

/-!
Shallow embedding of the interactive behavior layer of the laundry-business
landing page (`src/script.js`) and proofs of the frozen claims about it.

The script manipulates DOM nodes through `classList.add` / `classList.remove`,
attributes, and child error/success nodes.  The embedding represents each DOM
region the script touches as a small structure (class lists as `List String`,
attributes as `Option String`) and each handler as a pure function from the
old state (plus the event's data) to the new state.
-/

namespace LaundryPage

/-! ## DOM primitives

`classList.add` appends the token when it is absent and does nothing when it
is present; `classList.remove` deletes every occurrence of the token. -/

/-- `el.classList.add c` on a class list. -/
def classAdd (cs : List String) (c : String) : List String :=
  if cs.contains c then cs else cs ++ [c]

/-- `el.classList.remove c` on a class list. -/
def classRemove (cs : List String) (c : String) : List String :=
  cs.filter (fun x => x != c)

/-! ## JavaScript string primitives used by the form validator -/

/-- The character class of JavaScript's `\s` (ECMAScript WhiteSpace and
LineTerminator), which is also the set removed by `String.prototype.trim`. -/
def isJsSpace (c : Char) : Bool :=
  c == ' ' || c == '\t' || c == '\n' || c == '\u000B' || c == '\u000C' || c == '\r' ||
  c == '\u00A0' || c == '\u1680' || ('\u2000' ≤ c && c ≤ '\u200A') ||
  c == '\u2028' || c == '\u2029' || c == '\u202F' || c == '\u205F' ||
  c == '\u3000' || c == '\uFEFF'

/-- Remove leading JavaScript whitespace. -/
def trimLeftL (cs : List Char) : List Char :=
  cs.dropWhile isJsSpace

/-- Remove trailing JavaScript whitespace. -/
def trimRightL (cs : List Char) : List Char :=
  (cs.reverse.dropWhile isJsSpace).reverse

/-- `String.prototype.trim` on a character list. -/
def jsTrimL (cs : List Char) : List Char :=
  trimRightL (trimLeftL cs)

/-- `value.trim()` as used by `validateField` (src/script.js line 720). -/
def jsTrim (s : String) : String :=
  ⟨jsTrimL s.data⟩

/-- A character admitted by `[^\s@]`: anything but whitespace and `@`. -/
def emailChar (c : Char) : Bool :=
  !isJsSpace c && c != '@'

/-- Split a list at the first occurrence of `c`; `none` when `c` is absent. -/
def splitAtChar (c : Char) : List Char → Option (List Char × List Char)
  | [] => none
  | x :: xs =>
    if x == c then some ([], xs)
    else
      match splitAtChar c xs with
      | some (l, r) => some (x :: l, r)
      | none => none

/-- `cs` decomposes as `B ++ ['.'] ++ C` with `B` and `C` nonempty: the dot of
`[^\s@]+\.[^\s@]+` can be chosen at any position that is neither the first nor
the last character, i.e. the tail of `cs` contains a dot before its last
character. -/
def hasMidDot (cs : List Char) : Bool :=
  cs.tail.dropLast.contains '.'

/-- The email pattern of src/script.js line 734,
`/^[^\s@]+@[^\s@]+\.[^\s@]+$/`: the string splits at its (only) `@` into a
nonempty whitespace-free local part and a rest that is whitespace-free,
`@`-free and has an interior dot. -/
def emailTest (s : String) : Bool :=
  match splitAtChar '@' s.data with
  | none => false
  | some (loc, rest) =>
    !loc.isEmpty && loc.all emailChar && rest.all emailChar && hasMidDot rest

/-- A character admitted by `[\d\s\-\+\(\)]`. -/
def phoneChar (c : Char) : Bool :=
  c.isDigit || isJsSpace c || c == '-' || c == '+' || c == '(' || c == ')'

/-- The phone pattern of src/script.js line 743, `/^[\d\s\-\+\(\)]+$/`:
nonempty and made only of digits, whitespace, `-`, `+`, `(` and `)`. -/
def phoneTest (s : String) : Bool :=
  !s.data.isEmpty && s.data.all phoneChar

/-! ## Form fields and `validateField` -/

/-- One input/textarea of the contact form as the validator sees it: its
current value, its `type`, whether it carries the `required` attribute, its
class list, its `aria-invalid` attribute, and the text of the adjacent
`.field-error` node (`none` when no such node exists).  `defaultValue` is the
value `form.reset()` restores. -/
structure Field where
  value : String
  ftype : String
  required : Bool
  classes : List String
  ariaInvalid : Option String
  errorText : Option String
  defaultValue : String
deriving DecidableEq

/-- `clearFieldError` (src/script.js lines 778-787): drop the `error` class,
the `aria-invalid` attribute and the `.field-error` node. -/
def clearFieldError (f : Field) : Field :=
  { f with classes := classRemove f.classes "error",
           ariaInvalid := none,
           errorText := none }

/-- `showFieldError` (src/script.js lines 758-772): add the `error` class, set
`aria-invalid="true"`, and create or overwrite the `.field-error` node's
text. -/
def showFieldError (f : Field) (msg : String) : Field :=
  { f with classes := classAdd f.classes "error",
           ariaInvalid := some "true",
           errorText := some msg }

/-- `validateField` (src/script.js lines 718-751): trim the value, clear any
previous error, then run the required / email / phone checks in order with
early return.  Returns the validity flag and the updated field. -/
def validateField (f : Field) : Bool × Field :=
  let value := jsTrim f.value
  let f1 := clearFieldError f
  if f.required && value == "" then
    (false, showFieldError f1 "This field is required")
  else if f.ftype == "email" && value != "" && !emailTest value then
    (false, showFieldError f1 "Please enter a valid email address")
  else if f.ftype == "tel" && value != "" && !phoneTest value then
    (false, showFieldError f1 "Please enter a valid phone number")
  else
    (true, f1)

/-- The field carries the visible error marker for `msg`: the `error` class,
`aria-invalid="true"` and a `.field-error` node holding `msg`. -/
def showsError (f : Field) (msg : String) : Prop :=
  f.classes.contains "error" = true ∧
  f.ariaInvalid = some "true" ∧
  f.errorText = some msg

/-- The field carries no error marker at all. -/
def noErrorMarker (f : Field) : Prop :=
  f.classes.contains "error" = false ∧
  f.ariaInvalid = none ∧
  f.errorText = none

/-! ## Mobile menu

`CONFIG.MOBILE_BREAKPOINT` and `CLASSES.MOBILE_MENU_OPEN` from
src/script.js lines 23-48. -/

/-- `CONFIG.MOBILE_BREAKPOINT` (src/script.js line 26). -/
def MOBILE_BREAKPOINT : Nat := 768

/-- The class lists of the navigation container (`header nav`) and of the
`.mobile-menu-toggle` button, and the button's `aria-expanded` attribute:
everything the menu handlers read or write.  The handlers no-op when either
element is missing, so the state models both present. -/
structure MenuState where
  navClasses : List String
  toggleClasses : List String
  ariaExpanded : Option String
deriving DecidableEq

/-- `openMobileMenu` (src/script.js lines 343-354): add `mobile-menu-open` to
the nav and the toggle, set `aria-expanded="true"`. -/
def openMobileMenu (s : MenuState) : MenuState :=
  { navClasses := classAdd s.navClasses "mobile-menu-open",
    toggleClasses := classAdd s.toggleClasses "mobile-menu-open",
    ariaExpanded := some "true" }

/-- `closeMobileMenu` (src/script.js lines 359-370): remove `mobile-menu-open`
from the nav and the toggle, set `aria-expanded="false"`. -/
def closeMobileMenu (s : MenuState) : MenuState :=
  { navClasses := classRemove s.navClasses "mobile-menu-open",
    toggleClasses := classRemove s.toggleClasses "mobile-menu-open",
    ariaExpanded := some "false" }

/-- `toggleMobileMenu` (src/script.js lines 319-338): close when the nav has
the `mobile-menu-open` class, open otherwise. -/
def toggleMobileMenu (s : MenuState) : MenuState :=
  if s.navClasses.contains "mobile-menu-open" then closeMobileMenu s
  else openMobileMenu s

/-- `handleOutsideClick` (src/script.js lines 376-391): when the menu is open
and the click target is inside neither the nav nor the toggle, close it.
`targetInNav` / `targetInToggle` are the two `contains(event.target)`
tests. -/
def handleOutsideClick (targetInNav targetInToggle : Bool) (s : MenuState) : MenuState :=
  if !(s.navClasses.contains "mobile-menu-open") then s
  else if !targetInNav && !targetInToggle then closeMobileMenu s
  else s

/-- `handleEscapeKey` (src/script.js lines 397-401): close the menu when the
pressed key is Escape (`event.key` or legacy `event.keyCode === 27`). -/
def handleEscapeKey (key : String) (keyCode : Nat) (s : MenuState) : MenuState :=
  if key == "Escape" || keyCode == 27 then closeMobileMenu s else s

/-- `handleResize` (src/script.js lines 406-410): close the menu when the
viewport is at or above the mobile breakpoint. -/
def handleResize (innerWidth : Nat) (s : MenuState) : MenuState :=
  if MOBILE_BREAKPOINT ≤ innerWidth then closeMobileMenu s else s

/-- The closed menu state as initialization leaves it: no `mobile-menu-open`
class on nav or toggle (`createMobileMenuToggle`, src/script.js lines 217-232,
creates the button without it) and `aria-expanded="false"`. -/
def closedMenuState (s : MenuState) : Prop :=
  s.navClasses.contains "mobile-menu-open" = false ∧
  s.toggleClasses.contains "mobile-menu-open" = false ∧
  s.ariaExpanded = some "false"

/-- The three open/closed indicators agree: the nav has `mobile-menu-open` iff
the toggle has it iff `aria-expanded` is `"true"`. -/
def menuSync (s : MenuState) : Prop :=
  s.navClasses.contains "mobile-menu-open" = s.toggleClasses.contains "mobile-menu-open" ∧
  (s.navClasses.contains "mobile-menu-open" = true ↔ s.ariaExpanded = some "true")

/-! ## Scroll-to-top button -/

/-- `CONFIG.SCROLL_TO_TOP_THRESHOLD` (src/script.js line 25). -/
def SCROLL_TO_TOP_THRESHOLD : Nat := 300

/-- `handleScroll` (src/script.js lines 606-624) acting on the
`.scroll-to-top` button's class list: add `visible` when the scroll position
exceeds the threshold, remove it otherwise.  `scrollPosition` is
`window.pageYOffset || document.documentElement.scrollTop`. -/
def handleScroll (scrollPosition : Nat) (buttonClasses : List String) : List String :=
  if SCROLL_TO_TOP_THRESHOLD < scrollPosition then classAdd buttonClasses "visible"
  else classRemove buttonClasses "visible"

/-! ## Lazy image loading -/

/-- A lazily loaded image as `loadImage` sees it: its class list, its `src`
attribute (`none` when absent), the `complete` flag, and the kinds of event
listeners registered on it so far. -/
structure LazyImage where
  classes : List String
  src : Option String
  complete : Bool
  listeners : List String
deriving DecidableEq

/-- `loadImage` (src/script.js lines 468-495): skip images already marked
`lazy-loaded` and images with a missing or empty `src` (`!src`); otherwise
register `load` and `error` listeners and, when the image is already
`complete`, add the `lazy-loaded` class at once. -/
def loadImage (img : LazyImage) : LazyImage :=
  if img.classes.contains "lazy-loaded" then img
  else
    match img.src with
    | none => img
    | some s =>
      if s == "" then img
      else
        let img1 := { img with listeners := img.listeners ++ ["load", "error"] }
        if img1.complete then
          { img1 with classes := classAdd img1.classes "lazy-loaded" }
        else img1

/-! ## Smooth scrolling navigation -/

/-- The element a fragment selector resolves to: its
`getBoundingClientRect().top` and its identity (for focus tracking). -/
structure ScrollTarget where
  top : Int
  id : String
deriving DecidableEq

/-- Everything `handleSmoothScroll` can read or write: the current scroll
position, the header height (`none` when no header exists, in which case the
offset falls back to `CONFIG.SCROLL_OFFSET = 80`), the mobile-menu state, the
URL fragment, whether `preventDefault` was called, the last issued
`scrollTo` target, and the focused element's id. -/
structure PageState where
  pageYOffset : Int
  headerHeight : Option Nat
  menu : MenuState
  url : String
  defaultPrevented : Bool
  scrolledTo : Option Int
  focused : Option String
deriving DecidableEq

/-- `getScrollOffset` (src/script.js lines 96-99): the header's height, or the
fixed `CONFIG.SCROLL_OFFSET` fallback of 80. -/
def getScrollOffset (headerHeight : Option Nat) : Int :=
  match headerHeight with
  | some h => (h : Int)
  | none => 80

/-- `handleSmoothScroll` (src/script.js lines 133-172): return unchanged when
the link's `href` is absent or empty or does not start with `#`, or when the
fragment resolves to no element; otherwise prevent default, scroll to the
offset-adjusted target position, push the fragment onto the URL, close the
mobile menu and focus the target.  `resolve` is `document.querySelector`
restricted to the fragment selectors this handler passes it. -/
def handleSmoothScroll (resolve : String → Option ScrollTarget)
    (href : Option String) (s : PageState) : PageState :=
  match href with
  | none => s
  | some targetId =>
    if targetId == "" || !(targetId.startsWith "#") then s
    else
      match resolve targetId with
      | none => s
      | some tgt =>
        let offset := getScrollOffset s.headerHeight
        let targetPosition := tgt.top + s.pageYOffset - offset
        { s with defaultPrevented := true,
                 scrolledTo := some targetPosition,
                 url := targetId,
                 menu := closeMobileMenu s.menu,
                 focused := some tgt.id }

/-! ## Contact form submission -/

/-- The success node `showFormSuccess` inserts: its `role` attribute and its
text. -/
structure SuccessNode where
  role : String
  text : String
deriving DecidableEq

/-- The contact form: its fields, its class list and the `.form-success`
child node when present. -/
structure ContactForm where
  fields : List Field
  classes : List String
  successBanner : Option SuccessNode
deriving DecidableEq

/-- `validateForm` (src/script.js lines 700-711): run `validateField` over
every field in order (each field gets its markers updated) and conjoin the
per-field results. -/
def validateForm : List Field → Bool × List Field
  | [] => (true, [])
  | f :: rest =>
    let r := validateField f
    let rs := validateForm rest
    (r.1 && rs.1, r.2 :: rs.2)

/-- `showFormSuccess` (src/script.js lines 793-814), synchronous part: add the
`success` class, insert a `.form-success` node with `role="status"` when none
exists, and schedule the reset timeout.  Returns the new form and the
scheduled delay in milliseconds. -/
def showFormSuccess (form : ContactForm) : ContactForm × Nat :=
  let form1 := { form with classes := classAdd form.classes "success" }
  let node : SuccessNode :=
    { role := "status", text := "Thank you! Your message has been sent successfully." }
  let form2 :=
    match form1.successBanner with
    | some _ => form1
    | none => { form1 with successBanner := some node }
  (form2, 5000)

/-- `form.reset()` on one field: restore the default value.  (It does not
touch classes or error nodes.) -/
def resetField (f : Field) : Field :=
  { f with value := f.defaultValue }

/-- The body of the timeout scheduled by `showFormSuccess` (src/script.js
lines 807-813): `form.reset()`, remove the `success` class, remove the
`.form-success` node. -/
def formSuccessTimeout (form : ContactForm) : ContactForm :=
  { fields := form.fields.map resetField,
    classes := classRemove form.classes "success",
    successBanner := none }

/-- `handleFormSubmit` (src/script.js lines 674-693): `preventDefault` first,
unconditionally; then validate every field; on success run
`showFormSuccess`.  Returns the new form, the `defaultPrevented` flag, and
the scheduled timeout delay (`none` when nothing was scheduled). -/
def handleFormSubmit (form : ContactForm) : ContactForm × Bool × Option Nat :=
  let v := validateForm form.fields
  let form1 := { form with fields := v.2 }
  if !v.1 then (form1, true, none)
  else
    let sf := showFormSuccess form1
    (sf.1, true, some sf.2)

/-! ## Exception flow

The script wraps some function bodies in `try { ... } catch (error)
{ logError(...) }` and leaves others bare.  The embedding maps a body to its
outcome in `Except String Unit` — `Except.error e` stands for an exception
`e` raised inside the body — and each wrapper to what the function returns to
its caller: `tryCatch` models a body wrapped in try/catch (the exception is
logged and swallowed), while an unwrapped body's outcome is returned as
is. -/

/-- `try { body } catch (error) { logError(context, error) }`: every
exception of the body is caught and logged, the function returns normally. -/
def tryCatch (body : Except String Unit) : Except String Unit :=
  match body with
  | Except.ok _ => Except.ok ()
  | Except.error _ => Except.ok ()

/-- Each of the six feature initializers (`initSmoothScrolling`,
`initMobileMenu`, `initLazyLoading`, `initScrollToTop`, `initFormValidation`,
`initKeyboardAccessibility`) has its whole body inside try/catch. -/
def initFeatureFlow (body : Except String Unit) : Except String Unit :=
  tryCatch body

/-- Run the initializers in sequence the way `initializeFeatures` calls them:
an initializer that returned an exception would abort the sequence; one that
returns normally lets it continue.  Returns the sequence's outcome and how
many initializers were invoked. -/
def runInits : List (Except String Unit) → Except String Unit × Nat
  | [] => (Except.ok (), 0)
  | b :: bs =>
    match initFeatureFlow b with
    | Except.error e => (Except.error e, 1)
    | Except.ok _ =>
      let r := runInits bs
      (r.1, r.2 + 1)

/-- `initializeFeatures` (src/script.js lines 880-893): the six initializer
calls in sequence, the whole sequence wrapped in one more try/catch. -/
def initializeFeaturesFlow (bodies : List (Except String Unit)) : Except String Unit × Nat :=
  let r := runInits bodies
  (tryCatch r.1, r.2)

/-- Exception flow of `toggleMobileMenu` (src/script.js lines 319-338): its
whole body is inside try/catch. -/
def toggleMobileMenuFlow (body : Except String Unit) : Except String Unit :=
  tryCatch body

/-- Exception flow of `handleEscapeKey` (src/script.js lines 397-401): the
handler has no try/catch, so when the key matches Escape the outcome of the
`closeMobileMenu()` body is the outcome of the handler. -/
def handleEscapeKeyFlow (key : String) (keyCode : Nat)
    (closeBody : Except String Unit) : Except String Unit :=
  if key == "Escape" || keyCode == 27 then closeBody else Except.ok ()

/-- Exception flow of `handleOutsideClick` (src/script.js lines 376-391): the
handler has no try/catch, so when the menu is open and the click lands
outside, the outcome of the `closeMobileMenu()` body is the outcome of the
handler. -/
def handleOutsideClickFlow (menuOpen outside : Bool)
    (closeBody : Except String Unit) : Except String Unit :=
  if menuOpen && outside then closeBody else Except.ok ()

/-! ## Concrete states used as witnesses -/

/-- A required text field holding only blanks. -/
def fieldReqEmpty : Field :=
  { value := "   ", ftype := "text", required := true, classes := [],
    ariaInvalid := none, errorText := none, defaultValue := "" }

/-- An optional email field holding a malformed address. -/
def fieldBadEmail : Field :=
  { value := "not-an-email", ftype := "email", required := false, classes := [],
    ariaInvalid := none, errorText := none, defaultValue := "" }

/-- An optional phone field holding a letter. -/
def fieldBadPhone : Field :=
  { value := "555x123", ftype := "tel", required := false, classes := [],
    ariaInvalid := none, errorText := none, defaultValue := "" }

/-- An optional email field holding a well-formed address. -/
def fieldGoodEmail : Field :=
  { value := "a@b.co", ftype := "email", required := false, classes := [],
    ariaInvalid := none, errorText := none, defaultValue := "" }

/-- A required field whose value is whitespace only. -/
def fieldSpaces : Field :=
  { value := " \t  ", ftype := "text", required := true, classes := [],
    ariaInvalid := none, errorText := none, defaultValue := "" }

/-- A closed menu as initialization leaves it. -/
def menuClosed0 : MenuState :=
  { navClasses := ["site-nav"], toggleClasses := ["mobile-menu-toggle"],
    ariaExpanded := some "false" }

/-- A synchronized closed menu. -/
def menuClosed1 : MenuState :=
  { navClasses := [], toggleClasses := [], ariaExpanded := some "false" }

/-- A lazily loaded image with no `src` attribute; such an image reports
`complete = true`. -/
def imageNoSrc : LazyImage :=
  { classes := [], src := none, complete := true, listeners := [] }

/-- A lazily loaded image with a source that is already complete. -/
def imageComplete0 : LazyImage :=
  { classes := [], src := some "hero.jpg", complete := true, listeners := [] }

/-- A page state before any smooth-scroll click. -/
def pageState0 : PageState :=
  { pageYOffset := 0, headerHeight := some 64, menu := menuClosed1, url := "/",
    defaultPrevented := false, scrolledTo := none, focused := none }

/-- A contact form whose single required field is validly filled. -/
def contactForm0 : ContactForm :=
  { fields := [{ value := "Jo", ftype := "text", required := true, classes := [],
                 ariaInvalid := none, errorText := none, defaultValue := "" }],
    classes := [], successBanner := none }

/-- A contact form whose single required field is empty. -/
def contactFormBad0 : ContactForm :=
  { fields := [{ value := "", ftype := "text", required := true, classes := [],
                 ariaInvalid := none, errorText := none, defaultValue := "" }],
    classes := [], successBanner := none }

/-! ## Helper lemmas about the DOM primitives -/

theorem contains_classAdd_self (cs : List String) (c : String) :
    (classAdd cs c).contains c = true := by
  by_cases h : c ∈ cs <;> simp [classAdd, h]

theorem mem_classAdd_self (cs : List String) (c : String) : c ∈ classAdd cs c := by
  by_cases h : c ∈ cs <;> simp [classAdd, h]

theorem contains_classRemove_self (cs : List String) (c : String) :
    (classRemove cs c).contains c = false := by
  unfold classRemove
  simp

theorem not_mem_classRemove_self (cs : List String) (c : String) :
    c ∉ classRemove cs c := by
  simp [classRemove]

theorem classRemove_classAdd_of_not_contains (cs : List String) (c : String)
    (h : cs.contains c = false) : classRemove (classAdd cs c) c = cs := by
  have h2 : c ∉ cs := by simpa using h
  simp [classAdd, classRemove, h2, List.filter_eq_self]
  intro a ha he
  exact h2 (he ▸ ha)

/-! ## Helper lemmas about field validation -/

theorem showsError_showFieldError (f : Field) (msg : String) :
    showsError (showFieldError f msg) msg :=
  ⟨contains_classAdd_self f.classes "error", rfl, rfl⟩

theorem noErrorMarker_clearFieldError (f : Field) :
    noErrorMarker (clearFieldError f) :=
  ⟨contains_classRemove_self f.classes "error", rfl, rfl⟩

theorem validateField_required_case (f : Field)
    (h : (f.required && (jsTrim f.value == "")) = true) :
    validateField f = (false, showFieldError (clearFieldError f) "This field is required") := by
  simp [validateField, h]

theorem validateField_email_case (f : Field)
    (h1 : (f.required && (jsTrim f.value == "")) = false)
    (h2 : (f.ftype == "email" && jsTrim f.value != "" && !emailTest (jsTrim f.value)) = true) :
    validateField f =
      (false, showFieldError (clearFieldError f) "Please enter a valid email address") := by
  simp only [validateField, h1, h2]
  simp

theorem validateField_tel_case (f : Field)
    (h1 : (f.required && (jsTrim f.value == "")) = false)
    (h2 : (f.ftype == "email" && jsTrim f.value != "" && !emailTest (jsTrim f.value)) = false)
    (h3 : (f.ftype == "tel" && jsTrim f.value != "" && !phoneTest (jsTrim f.value)) = true) :
    validateField f =
      (false, showFieldError (clearFieldError f) "Please enter a valid phone number") := by
  simp only [validateField, h1, h2, h3]
  simp

theorem validateField_ok_case (f : Field)
    (h1 : (f.required && (jsTrim f.value == "")) = false)
    (h2 : (f.ftype == "email" && jsTrim f.value != "" && !emailTest (jsTrim f.value)) = false)
    (h3 : (f.ftype == "tel" && jsTrim f.value != "" && !phoneTest (jsTrim f.value)) = false) :
    validateField f = (true, clearFieldError f) := by
  simp only [validateField, h1, h2, h3]
  simp

theorem validateField_value (f : Field) : (validateField f).2.value = f.value := by
  simp only [validateField]
  split
  · rfl
  split
  · rfl
  split
  · rfl
  · rfl

theorem validateField_defaultValue (f : Field) :
    (validateField f).2.defaultValue = f.defaultValue := by
  simp only [validateField]
  split
  · rfl
  split
  · rfl
  split
  · rfl
  · rfl

theorem validateForm_values (fs : List Field) :
    (validateForm fs).2.map Field.value = fs.map Field.value := by
  induction fs with
  | nil => rfl
  | cons f rest ih => simp [validateForm, validateField_value, ih]

theorem validateForm_defaults (fs : List Field) :
    (validateForm fs).2.map Field.defaultValue = fs.map Field.defaultValue := by
  induction fs with
  | nil => rfl
  | cons f rest ih => simp [validateForm, validateField_defaultValue, ih]

/-! ## Helper lemmas about trimming -/

theorem trimRightL_eq_rdropWhile (cs : List Char) :
    trimRightL cs = cs.rdropWhile isJsSpace := rfl

theorem trimLeftL_trimRightL (cs : List Char) (h : trimLeftL cs = cs) :
    trimLeftL (trimRightL cs) = trimRightL cs := by
  rw [trimRightL_eq_rdropWhile]
  unfold trimLeftL at h ⊢
  rw [List.dropWhile_eq_self_iff] at h ⊢
  intro hl
  obtain ⟨t, ht⟩ := List.rdropWhile_prefix isJsSpace cs
  have hcs : 0 < cs.length := by
    rw [← ht, List.length_append]
    exact Nat.lt_of_lt_of_le hl (Nat.le_add_right _ _)
  have hg : (List.rdropWhile isJsSpace cs).get ⟨0, hl⟩ = cs.get ⟨0, hcs⟩ := by
    simp only [List.get_eq_getElem]
    exact (List.rdropWhile_prefix isJsSpace cs).getElem hl
  rw [hg]
  exact h hcs

theorem jsTrimL_idem (cs : List Char) : jsTrimL (jsTrimL cs) = jsTrimL cs := by
  unfold jsTrimL
  rw [trimLeftL_trimRightL (trimLeftL cs) (List.dropWhile_idempotent isJsSpace cs),
    trimRightL_eq_rdropWhile, trimRightL_eq_rdropWhile, List.rdropWhile_idempotent]

theorem jsTrim_idem (s : String) : jsTrim (jsTrim s) = jsTrim s := by
  unfold jsTrim
  exact congrArg String.mk (jsTrimL_idem s.data)

theorem jsTrim_eq_empty_of_all_space (s : String) (h : s.data.all isJsSpace = true) :
    jsTrim s = "" := by
  unfold jsTrim
  have h1 : trimLeftL s.data = [] := by
    unfold trimLeftL
    rw [List.dropWhile_eq_nil_iff]
    simpa [List.all_eq_true] using h
  show String.mk (jsTrimL s.data) = ""
  unfold jsTrimL
  rw [h1]
  rfl

/-! ## The claims -/

/-- C1: `validateField` applies its rules in order with the first failure
winning: a required field with an empty (trimmed) value gets the
required-error and `false`; otherwise an email field with a non-empty value
failing the email pattern gets the email error and `false`; otherwise a tel
field with a non-empty value failing the phone pattern gets the phone error
and `false`; otherwise the field validates and carries no error marker. -/
theorem validateField_rules (f : Field) :
    (f.required = true ∧ jsTrim f.value = "" →
      (validateField f).1 = false ∧ showsError (validateField f).2 "This field is required") ∧
    (¬(f.required = true ∧ jsTrim f.value = "") →
      f.ftype = "email" ∧ jsTrim f.value ≠ "" ∧ emailTest (jsTrim f.value) = false →
      (validateField f).1 = false ∧
        showsError (validateField f).2 "Please enter a valid email address") ∧
    (¬(f.required = true ∧ jsTrim f.value = "") →
      ¬(f.ftype = "email" ∧ jsTrim f.value ≠ "" ∧ emailTest (jsTrim f.value) = false) →
      f.ftype = "tel" ∧ jsTrim f.value ≠ "" ∧ phoneTest (jsTrim f.value) = false →
      (validateField f).1 = false ∧
        showsError (validateField f).2 "Please enter a valid phone number") ∧
    (¬(f.required = true ∧ jsTrim f.value = "") →
      ¬(f.ftype = "email" ∧ jsTrim f.value ≠ "" ∧ emailTest (jsTrim f.value) = false) →
      ¬(f.ftype = "tel" ∧ jsTrim f.value ≠ "" ∧ phoneTest (jsTrim f.value) = false) →
      (validateField f).1 = true ∧ noErrorMarker (validateField f).2) := by
  have reqF : ¬(f.required = true ∧ jsTrim f.value = "") →
      (f.required && (jsTrim f.value == "")) = false := by
    intro hA
    cases hc : (f.required && (jsTrim f.value == "")) with
    | false => rfl
    | true =>
      rw [Bool.and_eq_true, beq_iff_eq] at hc
      exact absurd ⟨hc.1, hc.2⟩ hA
  have emF : ¬(f.ftype = "email" ∧ jsTrim f.value ≠ "" ∧ emailTest (jsTrim f.value) = false) →
      (f.ftype == "email" && jsTrim f.value != "" && !emailTest (jsTrim f.value)) = false := by
    intro hB
    cases hc : (f.ftype == "email" && jsTrim f.value != "" && !emailTest (jsTrim f.value)) with
    | false => rfl
    | true =>
      simp only [Bool.and_eq_true, beq_iff_eq, bne_iff_ne, Bool.not_eq_true'] at hc
      exact absurd ⟨hc.1.1, hc.1.2, hc.2⟩ hB
  have telF : ¬(f.ftype = "tel" ∧ jsTrim f.value ≠ "" ∧ phoneTest (jsTrim f.value) = false) →
      (f.ftype == "tel" && jsTrim f.value != "" && !phoneTest (jsTrim f.value)) = false := by
    intro hC
    cases hc : (f.ftype == "tel" && jsTrim f.value != "" && !phoneTest (jsTrim f.value)) with
    | false => rfl
    | true =>
      simp only [Bool.and_eq_true, beq_iff_eq, bne_iff_ne, Bool.not_eq_true'] at hc
      exact absurd ⟨hc.1.1, hc.1.2, hc.2⟩ hC
  refine ⟨?_, ?_, ?_, ?_⟩
  · rintro ⟨hr, hv⟩
    rw [validateField_required_case f (by simp [hr, hv])]
    exact ⟨rfl, showsError_showFieldError _ _⟩
  · rintro hA ⟨hf, hv, he⟩
    rw [validateField_email_case f (reqF hA) (by simp [hf, hv, he])]
    exact ⟨rfl, showsError_showFieldError _ _⟩
  · rintro hA hB ⟨hf, hv, hp⟩
    rw [validateField_tel_case f (reqF hA) (emF hB) (by simp [hf, hv, hp])]
    exact ⟨rfl, showsError_showFieldError _ _⟩
  · intro hA hB hC
    rw [validateField_ok_case f (reqF hA) (emF hB) (telF hC)]
    exact ⟨rfl, noErrorMarker_clearFieldError f⟩

/-- C1 witness: the four rule outcomes at concrete fields — a blank required
field, a malformed email, a malformed phone number, and a valid email. -/
theorem validateField_rules_witness :
    ((validateField fieldReqEmpty).1 = false ∧
      showsError (validateField fieldReqEmpty).2 "This field is required") ∧
    ((validateField fieldBadEmail).1 = false ∧
      showsError (validateField fieldBadEmail).2 "Please enter a valid email address") ∧
    ((validateField fieldBadPhone).1 = false ∧
      showsError (validateField fieldBadPhone).2 "Please enter a valid phone number") ∧
    ((validateField fieldGoodEmail).1 = true ∧
      noErrorMarker (validateField fieldGoodEmail).2) :=
  ⟨(validateField_rules fieldReqEmpty).1 (by decide),
   (validateField_rules fieldBadEmail).2.1 (by decide) (by decide),
   (validateField_rules fieldBadPhone).2.2.1 (by decide) (by decide) (by decide),
   (validateField_rules fieldGoodEmail).2.2.2 (by decide) (by decide) (by decide)⟩

/-- C2: after `handleScroll` runs, the scroll-to-top button has the `visible`
class iff the scroll offset strictly exceeds the 300px threshold; at offsets
0 and exactly 300 the class is absent. -/
theorem handleScroll_visible (pos : Nat) (cs : List String) :
    ((handleScroll pos cs).contains "visible" = true ↔ SCROLL_TO_TOP_THRESHOLD < pos) ∧
    (handleScroll 0 cs).contains "visible" = false ∧
    (handleScroll 300 cs).contains "visible" = false := by
  refine ⟨?_, ?_, ?_⟩
  · by_cases h : SCROLL_TO_TOP_THRESHOLD < pos
    · simp [handleScroll, h, mem_classAdd_self]
    · simp [handleScroll, h, not_mem_classRemove_self]
  · simp [handleScroll, SCROLL_TO_TOP_THRESHOLD, not_mem_classRemove_self]
  · simp [handleScroll, SCROLL_TO_TOP_THRESHOLD, not_mem_classRemove_self]

/-- C2 witness: the button is visible at offset 301 and hidden at offset 0. -/
theorem handleScroll_visible_witness :
    (handleScroll 301 []).contains "visible" = true ∧
    (handleScroll 0 []).contains "visible" = false :=
  ⟨(handleScroll_visible 301 []).1.mpr (by decide), (handleScroll_visible 0 []).2.1⟩

/-- C3 counterexample: `handleEscapeKey` has no try/catch, so an exception
raised inside its body (here, by the `closeMobileMenu()` call it makes on
Escape) propagates to the caller, refuting the claim that every event handler
is wrapped. -/
theorem handleEscapeKeyFlow_propagates :
    handleEscapeKeyFlow "Escape" 27 (Except.error "DOM failure") =
      Except.error "DOM failure" := rfl

/-- C3 (amended): every feature initializer — and `initializeFeatures`
itself, and handlers such as `toggleMobileMenu` — is wrapped in try/catch, so
whatever the six initializer bodies do, all six are invoked and no exception
escapes; but not every event handler is wrapped. -/
theorem initializeFeatures_isolated (bodies : List (Except String Unit)) :
    (initializeFeaturesFlow bodies).1 = Except.ok () ∧
    (initializeFeaturesFlow bodies).2 = bodies.length ∧
    (∀ b, initFeatureFlow b = Except.ok ()) ∧
    (∀ b, toggleMobileMenuFlow b = Except.ok ()) := by
  have hrun : ∀ bs : List (Except String Unit), runInits bs = (Except.ok (), bs.length) := by
    intro bs
    induction bs with
    | nil => rfl
    | cons b bs ih => cases b <;> simp [runInits, initFeatureFlow, tryCatch, ih]
  refine ⟨?_, ?_, ?_, ?_⟩
  · unfold initializeFeaturesFlow
    rw [hrun]
    rfl
  · unfold initializeFeaturesFlow
    rw [hrun]
  · intro b
    cases b <;> rfl
  · intro b
    cases b <;> rfl

/-- C3 witness: with a failing first initializer body and a normal second
one, both initializers are invoked and initialization returns normally. -/
theorem initializeFeatures_isolated_witness :
    (initializeFeaturesFlow [Except.error "boom", Except.ok ()]).2 = 2 ∧
    (initializeFeaturesFlow [Except.error "boom", Except.ok ()]).1 = Except.ok () :=
  ⟨(initializeFeatures_isolated [Except.error "boom", Except.ok ()]).2.1,
   (initializeFeatures_isolated [Except.error "boom", Except.ok ()]).1⟩

/-- C4: from the closed menu state, toggling twice (open then close) restores
the nav's class list, the toggle's class list and `aria-expanded` exactly. -/
theorem toggleMobileMenu_open_close (s : MenuState) (h : closedMenuState s) :
    toggleMobileMenu (toggleMobileMenu s) = s := by
  obtain ⟨hn, ht, ha⟩ := h
  have h1 : toggleMobileMenu s = openMobileMenu s := by
    unfold toggleMobileMenu
    rw [hn]
    simp
  have h2 : toggleMobileMenu (openMobileMenu s) = closeMobileMenu (openMobileMenu s) := by
    unfold toggleMobileMenu
    rw [show (openMobileMenu s).navClasses = classAdd s.navClasses "mobile-menu-open" from rfl,
      contains_classAdd_self]
    simp
  rw [h1, h2]
  unfold closeMobileMenu openMobileMenu
  cases s with
  | mk nav tog aria =>
    simp only [MenuState.mk.injEq]
    exact ⟨classRemove_classAdd_of_not_contains nav _ hn,
      classRemove_classAdd_of_not_contains tog _ ht, ha.symm⟩

/-- C4 witness: toggling twice from a concrete closed state is the
identity. -/
theorem toggleMobileMenu_open_close_witness :
    toggleMobileMenu (toggleMobileMenu menuClosed0) = menuClosed0 :=
  toggleMobileMenu_open_close menuClosed0 (by unfold closedMenuState; decide)

/-- C5: submitting a form whose fields all validate displays the
`role="status"` success banner and schedules the fixed 5000ms timeout, and
running that timeout resets every field to its default value and removes the
banner. -/
theorem handleFormSubmit_success (form : ContactForm)
    (hv : (validateForm form.fields).1 = true) (hb : form.successBanner = none) :
    (handleFormSubmit form).1.successBanner =
      some { role := "status",
             text := "Thank you! Your message has been sent successfully." } ∧
    (handleFormSubmit form).2.2 = some 5000 ∧
    (formSuccessTimeout (handleFormSubmit form).1).successBanner = none ∧
    (formSuccessTimeout (handleFormSubmit form).1).fields.map Field.value =
      form.fields.map Field.defaultValue := by
  have hmain : handleFormSubmit form =
      ((showFormSuccess { form with fields := (validateForm form.fields).2 }).1, true,
        some (showFormSuccess { form with fields := (validateForm form.fields).2 }).2) := by
    unfold handleFormSubmit
    simp [hv]
  have hshow : showFormSuccess { form with fields := (validateForm form.fields).2 } =
      ({ fields := (validateForm form.fields).2,
         classes := classAdd form.classes "success",
         successBanner :=
           some { role := "status",
                  text := "Thank you! Your message has been sent successfully." } }, 5000) := by
    unfold showFormSuccess
    simp [hb]
  rw [hmain, hshow]
  refine ⟨rfl, rfl, rfl, ?_⟩
  unfold formSuccessTimeout
  show ((validateForm form.fields).2.map resetField).map Field.value =
    form.fields.map Field.defaultValue
  rw [List.map_map]
  have hcomp : (Field.value ∘ resetField) = Field.defaultValue := by
    funext g
    rfl
  rw [hcomp, validateForm_defaults]

/-- C5 witness: a concrete valid submission shows the status banner,
schedules 5000ms, and the timeout clears the field and removes the banner. -/
theorem handleFormSubmit_success_witness :
    (handleFormSubmit contactForm0).1.successBanner =
      some { role := "status",
             text := "Thank you! Your message has been sent successfully." } ∧
    (handleFormSubmit contactForm0).2.2 = some 5000 ∧
    (formSuccessTimeout (handleFormSubmit contactForm0).1).successBanner = none ∧
    (formSuccessTimeout (handleFormSubmit contactForm0).1).fields.map Field.value =
      contactForm0.fields.map Field.defaultValue :=
  handleFormSubmit_success contactForm0 (by decide) rfl

/-- C6: the submit handler always calls `preventDefault`, and on an invalid
form it shows no success banner, leaves every field value unchanged and
schedules no timeout. -/
theorem handleFormSubmit_prevents (form : ContactForm) :
    (handleFormSubmit form).2.1 = true ∧
    ((validateForm form.fields).1 = false →
      (handleFormSubmit form).1.successBanner = form.successBanner ∧
      (handleFormSubmit form).1.fields.map Field.value = form.fields.map Field.value ∧
      (handleFormSubmit form).2.2 = none) := by
  constructor
  · cases hv : (validateForm form.fields).1 with
    | true => simp [handleFormSubmit, hv]
    | false => simp [handleFormSubmit, hv]
  · intro hv
    unfold handleFormSubmit
    simp [hv, validateForm_values]

/-- C6 witness: a concrete invalid submission still prevents default, shows
no banner, keeps the field value and schedules nothing. -/
theorem handleFormSubmit_prevents_witness :
    (handleFormSubmit contactFormBad0).2.1 = true ∧
    ((handleFormSubmit contactFormBad0).1.successBanner = contactFormBad0.successBanner ∧
      (handleFormSubmit contactFormBad0).1.fields.map Field.value =
        contactFormBad0.fields.map Field.value ∧
      (handleFormSubmit contactFormBad0).2.2 = none) :=
  ⟨(handleFormSubmit_prevents contactFormBad0).1,
   (handleFormSubmit_prevents contactFormBad0).2 (by decide)⟩

/-- C7 counterexample: a lazily loaded image with no `src` attribute reports
`complete = true`, yet `loadImage` returns before marking it, so it does not
get the `lazy-loaded` class — refuting the claim for src-less images. -/
theorem loadImage_complete_unmarked :
    imageNoSrc.complete = true ∧
    (loadImage imageNoSrc).classes.contains "lazy-loaded" = false := by decide

/-- C7 (amended): every lazily loaded image with a non-empty `src` that is
already complete when `loadImage` runs carries the `lazy-loaded` class as
soon as `loadImage` returns, with no load event needed. -/
theorem loadImage_marks_complete (img : LazyImage) (s : String)
    (h1 : img.src = some s) (h2 : s ≠ "") (h3 : img.complete = true) :
    (loadImage img).classes.contains "lazy-loaded" = true := by
  unfold loadImage
  cases hc : img.classes.contains "lazy-loaded" with
  | true => simpa using hc
  | false =>
    have hs : (s == "") = false := by simp [h2]
    simp [hc, h1, hs, h3, mem_classAdd_self]

/-- C7 witness: a concrete complete image with a source is marked at once. -/
theorem loadImage_marks_complete_witness :
    (loadImage imageComplete0).classes.contains "lazy-loaded" = true :=
  loadImage_marks_complete imageComplete0 "hero.jpg" rfl (by decide) rfl

/-- C8: a click on a link whose `href` is absent, does not start with `#`, or
resolves to no element leaves the page state untouched: no `preventDefault`,
no scroll, no URL change, no menu change, no focus move. -/
theorem handleSmoothScroll_noop (resolve : String → Option ScrollTarget)
    (href : Option String) (s : PageState) :
    (href = none → handleSmoothScroll resolve href s = s) ∧
    (∀ t, href = some t → t.startsWith "#" = false → handleSmoothScroll resolve href s = s) ∧
    (∀ t, href = some t → resolve t = none → handleSmoothScroll resolve href s = s) := by
  refine ⟨?_, ?_, ?_⟩
  · intro h
    rw [h]
    rfl
  · intro t ht hsw
    subst ht
    simp [handleSmoothScroll, hsw]
  · intro t ht hr
    subst ht
    simp [handleSmoothScroll, hr]

/-- C8 witness: a fragment that resolves to no element leaves a concrete page
state unchanged. -/
theorem handleSmoothScroll_noop_witness :
    handleSmoothScroll (fun _ => none) (some "#services") pageState0 = pageState0 :=
  (handleSmoothScroll_noop (fun _ => none) (some "#services") pageState0).2.2 "#services" rfl rfl

/-- C9: every mobile-menu operation — open, close, toggle, outside click,
escape key, resize — preserves the synchronization of the nav class, the
toggle class and `aria-expanded`. -/
theorem menuSync_preserved (s : MenuState) (h : menuSync s) :
    menuSync (openMobileMenu s) ∧ menuSync (closeMobileMenu s) ∧
    menuSync (toggleMobileMenu s) ∧
    (∀ inNav inToggle : Bool, menuSync (handleOutsideClick inNav inToggle s)) ∧
    (∀ (key : String) (keyCode : Nat), menuSync (handleEscapeKey key keyCode s)) ∧
    (∀ w : Nat, menuSync (handleResize w s)) := by
  have hopen : menuSync (openMobileMenu s) := by
    unfold menuSync openMobileMenu
    constructor
    · rw [contains_classAdd_self, contains_classAdd_self]
    · simp [mem_classAdd_self]
  have hclose : menuSync (closeMobileMenu s) := by
    unfold menuSync closeMobileMenu
    constructor
    · rw [contains_classRemove_self, contains_classRemove_self]
    · simp [not_mem_classRemove_self]
  refine ⟨hopen, hclose, ?_, ?_, ?_, ?_⟩
  · unfold toggleMobileMenu
    split
    · exact hclose
    · exact hopen
  · intro a b
    unfold handleOutsideClick
    split
    · exact h
    split
    · exact hclose
    · exact h
  · intro k kc
    unfold handleEscapeKey
    split
    · exact hclose
    · exact h
  · intro w
    unfold handleResize
    split
    · exact hclose
    · exact h

/-- C9 witness: opening and toggling a concrete synchronized closed menu
yields synchronized states. -/
theorem menuSync_preserved_witness :
    menuSync (openMobileMenu menuClosed1) ∧ menuSync (toggleMobileMenu menuClosed1) :=
  ⟨(menuSync_preserved menuClosed1 (by unfold menuSync; decide)).1,
   (menuSync_preserved menuClosed1 (by unfold menuSync; decide)).2.2.1⟩

/-- C10: `validateField` trims before validating — a required field whose
value is only whitespace gets the required-error, and a field validates
exactly as the same field with its value pre-trimmed does. -/
theorem validateField_trims (f : Field) :
    (f.required = true ∧ f.value.data.all isJsSpace = true →
      (validateField f).1 = false ∧ showsError (validateField f).2 "This field is required") ∧
    (validateField f).1 = (validateField { f with value := jsTrim f.value }).1 := by
  constructor
  · rintro ⟨hr, hw⟩
    have hv : jsTrim f.value = "" := jsTrim_eq_empty_of_all_space f.value hw
    rw [validateField_required_case f (by simp [hr, hv])]
    exact ⟨rfl, showsError_showFieldError _ _⟩
  · set f2 : Field := { f with value := jsTrim f.value } with hf2
    have hval : jsTrim f2.value = jsTrim f.value := jsTrim_idem f.value
    have e1 : (f2.required && (jsTrim f2.value == "")) =
        (f.required && (jsTrim f.value == "")) := by rw [hval]
    have e2 : (f2.ftype == "email" && jsTrim f2.value != "" && !emailTest (jsTrim f2.value)) =
        (f.ftype == "email" && jsTrim f.value != "" && !emailTest (jsTrim f.value)) := by
      rw [hval]
    have e3 : (f2.ftype == "tel" && jsTrim f2.value != "" && !phoneTest (jsTrim f2.value)) =
        (f.ftype == "tel" && jsTrim f.value != "" && !phoneTest (jsTrim f.value)) := by
      rw [hval]
    cases h1 : (f.required && (jsTrim f.value == "")) with
    | true =>
      rw [validateField_required_case f h1, validateField_required_case f2 (e1.trans h1)]
    | false =>
      cases h2 : (f.ftype == "email" && jsTrim f.value != "" && !emailTest (jsTrim f.value)) with
      | true =>
        rw [validateField_email_case f h1 h2,
          validateField_email_case f2 (e1.trans h1) (e2.trans h2)]
      | false =>
        cases h3 : (f.ftype == "tel" && jsTrim f.value != "" && !phoneTest (jsTrim f.value)) with
        | true =>
          rw [validateField_tel_case f h1 h2 h3,
            validateField_tel_case f2 (e1.trans h1) (e2.trans h2) (e3.trans h3)]
        | false =>
          rw [validateField_ok_case f h1 h2 h3,
            validateField_ok_case f2 (e1.trans h1) (e2.trans h2) (e3.trans h3)]

/-- C10 witness: a required field holding only blanks is rejected with the
required-error, and trimming its value first does not change the verdict. -/
theorem validateField_trims_witness :
    ((validateField fieldSpaces).1 = false ∧
      showsError (validateField fieldSpaces).2 "This field is required") ∧
    (validateField fieldSpaces).1 =
      (validateField { fieldSpaces with value := jsTrim fieldSpaces.value }).1 :=
  ⟨(validateField_trims fieldSpaces).1 (by decide), (validateField_trims fieldSpaces).2⟩

end LaundryPage
